/-
Verification of the rule-based recommendation engine of the agro-advisory
prototype (`advisor.py`).

Embedding conventions:
* Python floats are modelled as exact rationals (`ℚ`); Python ints as `ℤ`.
* Python's `round` (banker's rounding, round half to even) is modelled by
  `roundHalfEven`.
* The rule table (a parsed JSON document) is modelled by the structures
  `CropRule`, `Thresholds`, `RuleTable`; the `crops` dict becomes an
  association list with lookup by key (dict keys are unique, so the first
  match is the match).
* `recommend` returns `Except String Result`: the single `raise ValueError`
  in the source becomes the `.error` branch carrying the same message text.
* Python's one-decimal float formatting of the pH messages is modelled by
  `fmt1` (round half to even at one decimal, kept sign for a negative value
  that rounds to zero).
-/
import Mathlib

namespace Advisor

/-- Python's `str.strip()`: remove leading and trailing whitespace. -/
def strip (s : String) : String :=
  String.mk ((s.data.dropWhile Char.isWhitespace).reverse.dropWhile
    Char.isWhitespace).reverse

/-- Python's `str.lower()`: lowercase every character. -/
def lower (s : String) : String := String.mk (s.data.map Char.toLower)

/-- One crop's rule: `ideal_ph` is the `[low, high]` pair, `base_npk` the
`[N, P, K]` triple, `notes` the optional list of static notes
(`c.get("notes", [])` in the source defaults a missing field to `[]`). -/
structure CropRule where
  ideal_ph : ℚ × ℚ
  base_npk : ℚ × ℚ × ℚ
  notes : Option (List String)
deriving DecidableEq, Repr

/-- The shared thresholds record of the rule table. -/
structure Thresholds where
  low_rainfall_mm : ℤ
  high_rainfall_mm : ℤ
  low_n : ℚ
  low_p : ℚ
  low_k : ℚ
deriving DecidableEq, Repr

/-- The whole rule table: the `crops` mapping plus the `thresholds` record. -/
structure RuleTable where
  crops : List (String × CropRule)
  thresholds : Thresholds
deriving DecidableEq, Repr

/-- The `inputs` echo of a result: soil values rounded to two decimals,
rainfall as given. -/
structure InputsEcho where
  soil_ph : ℚ
  soil_n : ℚ
  soil_p : ℚ
  soil_k : ℚ
  rainfall_mm : ℤ
deriving DecidableEq, Repr

/-- The `recommendation` sub-record of a result. -/
structure Recommendation where
  npk_estimate : ℤ × ℤ × ℤ
  explain : String
deriving DecidableEq, Repr

/-- The result record returned by `recommend`. -/
structure Result where
  crop : String
  inputs : InputsEcho
  recommendation : Recommendation
  messages : List String
  tips : List String
deriving DecidableEq, Repr

/-- The source's `clamp(x, lo, hi) = max(lo, min(hi, x))`. -/
def clamp (x lo hi : ℚ) : ℚ := max lo (min hi x)

/-- Python's `round` on a float: nearest integer, ties to the even one. -/
def roundHalfEven (x : ℚ) : ℤ :=
  if x - ⌊x⌋ < 1/2 then ⌊x⌋
  else if 1/2 < x - ⌊x⌋ then ⌊x⌋ + 1
  else if ⌊x⌋ % 2 = 0 then ⌊x⌋ else ⌊x⌋ + 1

/-- The nested `adjust(base, soil_value, low_thr)` of `recommend`: below the
threshold, boost by up to 30% scaled by severity; otherwise round the base. -/
def adjust (base soil_value low_thr : ℚ) : ℤ :=
  if soil_value < low_thr then
    roundHalfEven (base *
      (1 + 3/10 * clamp ((low_thr - soil_value) / max low_thr (1/1000000)) 0 1))
  else roundHalfEven base

/-- Two-decimal rounding `round(x, 2)` applied to the echoed soil inputs. -/
def round2 (x : ℚ) : ℚ := (roundHalfEven (x * 100) : ℚ) / 100

/-- Float formatting to one decimal place (round half to even), as in the
source's pH messages. -/
def fmt1 (x : ℚ) : String :=
  (if roundHalfEven (x * 10) < 0 ∨ (roundHalfEven (x * 10) = 0 ∧ x < 0)
    then "-" else "")
  ++ toString ((roundHalfEven (x * 10)).natAbs / 10)
  ++ "." ++ toString ((roundHalfEven (x * 10)).natAbs % 10)

/-- The low-pH advisory message. -/
def phLowMessage (crop_key : String) (soil_ph : ℚ) : String :=
  "Soil pH (" ++ fmt1 soil_ph ++ ") is LOW for " ++ crop_key
    ++ ". Consider liming (after soil test)."

/-- The high-pH advisory message. -/
def phHighMessage (crop_key : String) (soil_ph : ℚ) : String :=
  "Soil pH (" ++ fmt1 soil_ph ++ ") is HIGH for " ++ crop_key
    ++ ". Consider organic matter / sulfur guidance (after soil test)."

/-- The in-range pH advisory message. -/
def phOkMessage (crop_key : String) (soil_ph : ℚ) : String :=
  "Soil pH (" ++ fmt1 soil_ph ++ ") is within ideal range for " ++ crop_key ++ "."

/-- The pH guidance branch of `recommend` (an `if`/`elif`/`else` chain). -/
def phMessage (crop_key : String) (soil_ph ideal_low ideal_high : ℚ) : String :=
  if soil_ph < ideal_low then phLowMessage crop_key soil_ph
  else if ideal_high < soil_ph then phHighMessage crop_key soil_ph
  else phOkMessage crop_key soil_ph

/-- The low-rainfall tip string. -/
def lowRainfallTip : String :=
  "Rainfall is low: plan irrigation, mulching, or drought-tolerant practices."

/-- The high-rainfall tip string. -/
def highRainfallTip : String :=
  "High rainfall: ensure drainage and monitor fungal disease risk."

/-- The moderate-rainfall tip string. -/
def moderateRainfallTip : String :=
  "Rainfall seems moderate: keep basic moisture monitoring."

/-- The rainfall guidance branch of `recommend` (an `if`/`elif`/`else` chain). -/
def rainfallTip (rainfall_mm : ℤ) (t : Thresholds) : String :=
  if rainfall_mm < t.low_rainfall_mm then lowRainfallTip
  else if t.high_rainfall_mm < rainfall_mm then highRainfallTip
  else moderateRainfallTip

/-- The nitrogen warning string. -/
def nitrogenWarning : String :=
  "Nitrogen looks low → expect weaker growth if not corrected."

/-- The phosphorus warning string. -/
def phosphorusWarning : String :=
  "Phosphorus looks low → root development may be limited."

/-- The potassium warning string. -/
def potassiumWarning : String :=
  "Potassium looks low → stress tolerance and quality may drop."

/-- The three independent extra-warning `if`s of `recommend`, in source order. -/
def nutrientWarnings (n p k : ℚ) (t : Thresholds) : List String :=
  (if n < t.low_n then [nitrogenWarning] else [])
    ++ (if p < t.low_p then [phosphorusWarning] else [])
    ++ (if k < t.low_k then [potassiumWarning] else [])

/-- The fixed explanation string of every result. -/
def explainText : String :=
  "Rule-based estimate using base crop needs + simple thresholds. Verify with local soil test."

/-- The source's `sorted(crops.keys())`: crop keys in ascending
lexicographic order. -/
def sortedCropKeys (rules : RuleTable) : List String :=
  (rules.crops.map Prod.fst).mergeSort

/-- The unknown-crop error message built by the `raise ValueError` line. -/
def unknownCropMessage (crop : String) (rules : RuleTable) : String :=
  "Unknown crop \x27" ++ crop ++ "\x27. Try one of: "
    ++ String.intercalate ", " (sortedCropKeys rules)

/-- The source's `recommend(crop, soil_ph, n, p, k, rainfall_mm, rules)`:
normalize the crop key, look it up (error on a miss), then assemble the
result from the pH message, nutrient warnings, notes + rainfall tip, and the
three adjusted NPK values. -/
def recommend (crop : String) (soil_ph n p k : ℚ) (rainfall_mm : ℤ)
    (rules : RuleTable) : Except String Result :=
  let crop_key := lower (strip crop)
  match List.lookup crop_key rules.crops with
  | none => .error (unknownCropMessage crop rules)
  | some c =>
    let t := rules.thresholds
    .ok
      { crop := crop_key
        inputs :=
          { soil_ph := round2 soil_ph
            soil_n := round2 n
            soil_p := round2 p
            soil_k := round2 k
            rainfall_mm := rainfall_mm }
        recommendation :=
          { npk_estimate :=
              (adjust c.base_npk.1 n t.low_n,
               adjust c.base_npk.2.1 p t.low_p,
               adjust c.base_npk.2.2 k t.low_k)
            explain := explainText }
        messages :=
          phMessage crop_key soil_ph c.ideal_ph.1 c.ideal_ph.2
            :: nutrientWarnings n p k t
        tips := c.notes.getD [] ++ [rainfallTip rainfall_mm t] }

/-! ### Helper lemmas about the embedded operations -/

theorem floor_le_roundHalfEven (x : ℚ) : ⌊x⌋ ≤ roundHalfEven x := by
  unfold roundHalfEven
  split_ifs <;> omega

theorem roundHalfEven_le_floor_add_one (x : ℚ) : roundHalfEven x ≤ ⌊x⌋ + 1 := by
  unfold roundHalfEven
  split_ifs <;> omega

theorem roundHalfEven_intCast (m : ℤ) : roundHalfEven (m : ℚ) = m := by
  unfold roundHalfEven
  rw [Int.floor_intCast]
  norm_num

theorem roundHalfEven_mono {x y : ℚ} (h : x ≤ y) :
    roundHalfEven x ≤ roundHalfEven y := by
  have hf : ⌊x⌋ ≤ ⌊y⌋ := Int.floor_le_floor h
  rcases lt_or_eq_of_le hf with hlt | heq
  · have h1 := roundHalfEven_le_floor_add_one x
    have h2 := floor_le_roundHalfEven y
    omega
  · have hxy : x - (⌊x⌋ : ℚ) ≤ y - (⌊x⌋ : ℚ) := by linarith
    unfold roundHalfEven
    rw [← heq]
    split_ifs <;> first | omega | linarith

theorem clamp01_nonneg (x : ℚ) : 0 ≤ clamp x 0 1 := le_max_left _ _

theorem clamp01_le_one (x : ℚ) : clamp x 0 1 ≤ 1 :=
  max_le zero_le_one (min_le_left _ _)

theorem clamp_mono {x y : ℚ} (lo hi : ℚ) (h : x ≤ y) :
    clamp x lo hi ≤ clamp y lo hi :=
  max_le_max le_rfl (min_le_min le_rfl h)

theorem severity_divisor_pos (low_thr : ℚ) : 0 < max low_thr (1/1000000) :=
  lt_of_lt_of_le (by norm_num) (le_max_right _ _)

theorem lookup_eq_none_iff {β : Type} (key : String) (l : List (String × β)) :
    List.lookup key l = none ↔ key ∉ l.map Prod.fst := by
  induction l with
  | nil => simp
  | cons hd tl ih =>
    rcases hd with ⟨k, v⟩
    rw [List.lookup_cons]
    by_cases hk : key = k
    · subst hk
      simp
    · have hb : (key == k) = false := beq_false_of_ne hk
      simp [hb, ih, hk]

theorem lookup_some_of_mem_keys {β : Type} (key : String) (l : List (String × β))
    (h : key ∈ l.map Prod.fst) : ∃ v, List.lookup key l = some v := by
  rcases ho : List.lookup key l with _ | v
  · exact absurd ((lookup_eq_none_iff key l).mp ho) (by simpa using h)
  · exact ⟨v, rfl⟩

theorem int_le_adjust (m : ℤ) (hm : 0 ≤ m) (s thr : ℚ) :
    m ≤ adjust (m : ℚ) s thr := by
  unfold adjust
  split_ifs with h
  · have hm' : (0 : ℚ) ≤ (m : ℚ) := by exact_mod_cast hm
    have h1 : (m : ℚ) ≤ (m : ℚ) *
        (1 + 3/10 * clamp ((thr - s) / max thr (1/1000000)) 0 1) := by
      nlinarith [clamp01_nonneg ((thr - s) / max thr (1/1000000))]
    calc m = roundHalfEven (m : ℚ) := (roundHalfEven_intCast m).symm
      _ ≤ _ := roundHalfEven_mono h1
  · rw [roundHalfEven_intCast]

/-! ### Claims about the nutrient adjustment function -/

/-- C3: for `soilValue < lowThreshold` the adjusted value is
`round(base * (1.0 + 0.30 * clamp((lowThreshold - soilValue) / max(lowThreshold, 1e-6), 0.0, 1.0)))`,
and the divisor `max(lowThreshold, 1e-6)` is nonzero for every threshold,
zero included. -/
theorem adjust_below_threshold_formula (base soil_value low_thr : ℚ)
    (h : soil_value < low_thr) :
    adjust base soil_value low_thr =
      roundHalfEven (base *
        (1 + 3/10 * clamp ((low_thr - soil_value) / max low_thr (1/1000000)) 0 1))
    ∧ max low_thr (1/1000000) ≠ 0 :=
  ⟨by simp [adjust, h], ne_of_gt (severity_divisor_pos low_thr)⟩

theorem adjust_below_threshold_formula_witness :
    (2 : ℚ) < 5 ∧
      (adjust 10 2 5 =
        roundHalfEven (10 * (1 + 3/10 * clamp ((5 - 2) / max 5 (1/1000000)) 0 1))
      ∧ max (5 : ℚ) (1/1000000) ≠ 0) :=
  ⟨by norm_num, adjust_below_threshold_formula 10 2 5 (by norm_num)⟩

/-- C5: at `soilValue = lowThreshold` no boost is applied (the boost condition
is a strict `<`), so the adjusted value is `round(base)`. -/
theorem adjust_at_threshold (base low_thr : ℚ) :
    adjust base low_thr low_thr = roundHalfEven base := by
  simp [adjust]

/-- C4 fails as stated: with a negative base the adjustment is not antitone in
the soil value (`base = -10`, `lowThreshold = 1`, soil values `0 ≤ 1` give
adjusted outputs `-13 < -10`). -/
theorem adjust_antitone_counterexample :
    (0 : ℚ) ≤ 1 ∧ adjust (-10) 0 1 < adjust (-10) 1 1 := by
  constructor
  · norm_num
  · norm_num [adjust, clamp, roundHalfEven]

/-- C4 (amended): for every fixed nonnegative `base` and every
`lowThreshold`, the adjustment is antitone in `soilValue`: decreasing the
soil value never decreases the adjusted output. -/
theorem adjust_antitone_of_nonneg_base (base low_thr : ℚ) (hb : 0 ≤ base)
    {s1 s2 : ℚ} (h : s1 ≤ s2) :
    adjust base s2 low_thr ≤ adjust base s1 low_thr := by
  have hd : 0 < max low_thr (1/1000000) := severity_divisor_pos low_thr
  unfold adjust
  split_ifs with h1 h2 h2
  · apply roundHalfEven_mono
    apply mul_le_mul_of_nonneg_left _ hb
    have hc : clamp ((low_thr - s2) / max low_thr (1/1000000)) 0 1
        ≤ clamp ((low_thr - s1) / max low_thr (1/1000000)) 0 1 := by
      apply clamp_mono
      gcongr
    linarith
  · exact absurd (lt_of_le_of_lt h h1) h2
  · apply roundHalfEven_mono
    nlinarith [clamp01_nonneg ((low_thr - s1) / max low_thr (1/1000000))]
  · exact le_refl _

theorem adjust_antitone_of_nonneg_base_witness :
    (0 : ℚ) ≤ 10 ∧ (2 : ℚ) ≤ 4 ∧ adjust 10 4 5 ≤ adjust 10 2 5 :=
  ⟨by norm_num, by norm_num,
    adjust_antitone_of_nonneg_base 10 5 (by norm_num) (by norm_num)⟩

/-- Evaluation of `recommend` when the normalized crop key is found. -/
theorem recommend_ok (crop : String) (soil_ph n p k : ℚ) (rainfall_mm : ℤ)
    (rules : RuleTable) (c : CropRule)
    (hc : List.lookup (lower (strip crop)) rules.crops = some c) :
    recommend crop soil_ph n p k rainfall_mm rules = .ok
      { crop := lower (strip crop)
        inputs :=
          { soil_ph := round2 soil_ph
            soil_n := round2 n
            soil_p := round2 p
            soil_k := round2 k
            rainfall_mm := rainfall_mm }
        recommendation :=
          { npk_estimate :=
              (adjust c.base_npk.1 n rules.thresholds.low_n,
               adjust c.base_npk.2.1 p rules.thresholds.low_p,
               adjust c.base_npk.2.2 k rules.thresholds.low_k)
            explain := explainText }
        messages :=
          phMessage (lower (strip crop)) soil_ph c.ideal_ph.1 c.ideal_ph.2
            :: nutrientWarnings n p k rules.thresholds
        tips := c.notes.getD [] ++ [rainfallTip rainfall_mm rules.thresholds] } := by
  simp only [recommend, hc]

/-! ### Claims about `recommend` -/

/-- C1: for a crop key whose trimmed, lowercased form is absent from the
table's crops mapping, `recommend` fails with the unknown-crop error whose
message lists exactly the table's crop keys sorted ascending (the listed
`sortedCropKeys` are a permutation of the table's keys and are sorted); for
a crop key whose normalized form is present, `recommend` succeeds, so it
never fails with this error. -/
theorem recommend_unknown_crop (crop : String) (soil_ph n p k : ℚ)
    (rainfall_mm : ℤ) (rules : RuleTable) :
    (lower (strip crop) ∉ rules.crops.map Prod.fst →
      recommend crop soil_ph n p k rainfall_mm rules =
        .error (unknownCropMessage crop rules)) ∧
    (lower (strip crop) ∈ rules.crops.map Prod.fst →
      ∃ r, recommend crop soil_ph n p k rainfall_mm rules = .ok r) ∧
    List.Perm (sortedCropKeys rules) (rules.crops.map Prod.fst) ∧
    List.Sorted (· ≤ ·) (sortedCropKeys rules) := by
  refine ⟨?_, ?_, ?_, ?_⟩
  · intro h
    simp only [recommend, (lookup_eq_none_iff _ _).mpr h]
  · intro h
    obtain ⟨c, hc⟩ := lookup_some_of_mem_keys _ _ h
    exact ⟨_, recommend_ok crop soil_ph n p k rainfall_mm rules c hc⟩
  · exact List.mergeSort_perm _ _
  · exact List.sorted_mergeSort' _

/-- C9: `recommend` is deterministic — two calls with identical arguments
and identical rule tables return identical results (hence identical in every
field). -/
theorem recommend_deterministic (crop1 crop2 : String)
    (ph1 ph2 n1 n2 p1 p2 k1 k2 : ℚ) (r1 r2 : ℤ) (rules1 rules2 : RuleTable)
    (hc : crop1 = crop2) (hph : ph1 = ph2) (hn : n1 = n2) (hp : p1 = p2)
    (hk : k1 = k2) (hr : r1 = r2) (hrules : rules1 = rules2) :
    recommend crop1 ph1 n1 p1 k1 r1 rules1 =
      recommend crop2 ph2 n2 p2 k2 r2 rules2 := by
  subst hc hph hn hp hk hr hrules
  rfl

/-! ### Concrete rule tables used by witnesses and counterexamples -/

/-- A well-formed crop rule used by witnesses. -/
def cW : CropRule :=
  { ideal_ph := (11/2, 7), base_npk := (120, 60, 40), notes := some ["note a"] }

/-- A well-formed one-crop rule table used by witnesses. -/
def tblW : RuleTable :=
  { crops := [("maize", cW)]
    thresholds :=
      { low_rainfall_mm := 400, high_rainfall_mm := 1200
        low_n := 30, low_p := 25, low_k := 20 } }

theorem recommend_unknown_crop_witness :
    (lower (strip "tomato") ∉ tblW.crops.map Prod.fst) ∧
    recommend "tomato" 6 40 40 40 500 tblW =
      .error (unknownCropMessage "tomato" tblW) ∧
    (lower (strip " Maize ") ∈ tblW.crops.map Prod.fst) ∧
    (∃ r, recommend " Maize " 6 40 40 40 500 tblW = .ok r) :=
  ⟨by decide, (recommend_unknown_crop "tomato" 6 40 40 40 500 tblW).1 (by decide),
   by decide, (recommend_unknown_crop " Maize " 6 40 40 40 500 tblW).2.1 (by decide)⟩

theorem recommend_deterministic_witness :
    "maize" = "maize" ∧ (6 : ℚ) = 6 ∧ (40 : ℚ) = 40 ∧ (40 : ℚ) = 40 ∧
    (40 : ℚ) = 40 ∧ (500 : ℤ) = 500 ∧ tblW = tblW ∧
    recommend "maize" 6 40 40 40 500 tblW =
      recommend "maize" 6 40 40 40 500 tblW :=
  ⟨rfl, rfl, rfl, rfl, rfl, rfl, rfl,
    recommend_deterministic "maize" "maize" 6 6 40 40 40 40 40 40 500 500
      tblW tblW rfl rfl rfl rfl rfl rfl rfl⟩

/-- The rule table of the C2 counterexample: a crop whose base nitrogen value
is the non-integer `1.4`. -/
def cC2 : CropRule :=
  { ideal_ph := (11/2, 7), base_npk := (7/5, 2, 3), notes := some [] }

/-- Table holding `cC2`. -/
def tblC2 : RuleTable :=
  { crops := [("wheat", cC2)]
    thresholds :=
      { low_rainfall_mm := 400, high_rainfall_mm := 1200
        low_n := 5, low_p := 5, low_k := 5 } }

/-- C2 fails as stated: with base nitrogen `1.4` and soil nitrogen above the
low threshold, the successful call returns `npkEstimate` component
`round(1.4) = 1 < 1.4`, below the base value. -/
theorem npk_estimate_ge_base_counterexample :
    (List.lookup (lower (strip "wheat")) tblC2.crops).map CropRule.base_npk
      = some (7/5, 2, 3) ∧
    Option.map Prod.fst (Option.map Recommendation.npk_estimate
      (Option.map Result.recommendation
        (recommend "wheat" 6 9 9 9 500 tblC2).toOption)) = some 1 ∧
    ¬ ((7 : ℚ)/5 ≤ ((1 : ℤ) : ℚ)) := by
  refine ⟨rfl, ?_, by norm_num⟩
  have hlk : List.lookup (lower (strip "wheat")) tblC2.crops = some cC2 := rfl
  rw [recommend_ok "wheat" 6 9 9 9 500 tblC2 cC2 hlk]
  simp only [Except.toOption, Option.map, Option.some.injEq]
  norm_num [cC2, tblC2, adjust, roundHalfEven]

/-- C2 (amended): restricted to a crop rule whose base NPK values are
nonnegative integers, every successful call returns `npkEstimate` components
greater than or equal to the corresponding base values. (Over arbitrary
float bases the claim fails, because `round(base)` can fall below `base`;
see the counterexample.) -/
theorem npk_estimate_ge_int_base (crop : String) (soil_ph n p k : ℚ)
    (rainfall_mm : ℤ) (rules : RuleTable) (c : CropRule) (bN bP bK : ℤ)
    (hc : List.lookup (lower (strip crop)) rules.crops = some c)
    (hbase : c.base_npk = ((bN : ℚ), (bP : ℚ), (bK : ℚ)))
    (hN : 0 ≤ bN) (hP : 0 ≤ bP) (hK : 0 ≤ bK) :
    ∃ r, recommend crop soil_ph n p k rainfall_mm rules = .ok r ∧
      bN ≤ r.recommendation.npk_estimate.1 ∧
      bP ≤ r.recommendation.npk_estimate.2.1 ∧
      bK ≤ r.recommendation.npk_estimate.2.2 := by
  refine ⟨_, recommend_ok crop soil_ph n p k rainfall_mm rules c hc, ?_, ?_, ?_⟩
  · show bN ≤ adjust c.base_npk.1 n rules.thresholds.low_n
    rw [hbase]
    exact int_le_adjust bN hN n rules.thresholds.low_n
  · show bP ≤ adjust c.base_npk.2.1 p rules.thresholds.low_p
    rw [hbase]
    exact int_le_adjust bP hP p rules.thresholds.low_p
  · show bK ≤ adjust c.base_npk.2.2 k rules.thresholds.low_k
    rw [hbase]
    exact int_le_adjust bK hK k rules.thresholds.low_k

theorem npk_estimate_ge_int_base_witness :
    List.lookup (lower (strip "maize")) tblW.crops = some cW ∧
    cW.base_npk = (((120 : ℤ) : ℚ), ((60 : ℤ) : ℚ), ((40 : ℤ) : ℚ)) ∧
    (0 : ℤ) ≤ 120 ∧ (0 : ℤ) ≤ 60 ∧ (0 : ℤ) ≤ 40 ∧
    (∃ r, recommend "maize" 6 40 40 40 500 tblW = .ok r ∧
      (120 : ℤ) ≤ r.recommendation.npk_estimate.1 ∧
      (60 : ℤ) ≤ r.recommendation.npk_estimate.2.1 ∧
      (40 : ℤ) ≤ r.recommendation.npk_estimate.2.2) :=
  ⟨rfl, by norm_num [cW], by norm_num, by norm_num, by norm_num,
    npk_estimate_ge_int_base "maize" 6 40 40 40 500 tblW cW 120 60 40 rfl
      (by norm_num [cW]) (by norm_num) (by norm_num) (by norm_num)⟩

theorem warnings_pairwise_ne :
    nitrogenWarning ≠ phosphorusWarning ∧ nitrogenWarning ≠ potassiumWarning ∧
    phosphorusWarning ≠ potassiumWarning := by decide

theorem nitrogen_mem_iff (n p k : ℚ) (t : Thresholds) :
    nitrogenWarning ∈ nutrientWarnings n p k t ↔ n < t.low_n := by
  obtain ⟨h1, h2, h3⟩ := warnings_pairwise_ne
  unfold nutrientWarnings
  by_cases hn : n < t.low_n <;> by_cases hp : p < t.low_p <;>
      by_cases hk : k < t.low_k <;>
    simp [hn, hp, hk, h1, h2, h3, Ne.symm h1, Ne.symm h2, Ne.symm h3]

theorem phosphorus_mem_iff (n p k : ℚ) (t : Thresholds) :
    phosphorusWarning ∈ nutrientWarnings n p k t ↔ p < t.low_p := by
  obtain ⟨h1, h2, h3⟩ := warnings_pairwise_ne
  unfold nutrientWarnings
  by_cases hn : n < t.low_n <;> by_cases hp : p < t.low_p <;>
      by_cases hk : k < t.low_k <;>
    simp [hn, hp, hk, h1, h2, h3, Ne.symm h1, Ne.symm h2, Ne.symm h3]

theorem potassium_mem_iff (n p k : ℚ) (t : Thresholds) :
    potassiumWarning ∈ nutrientWarnings n p k t ↔ k < t.low_k := by
  obtain ⟨h1, h2, h3⟩ := warnings_pairwise_ne
  unfold nutrientWarnings
  by_cases hn : n < t.low_n <;> by_cases hp : p < t.low_p <;>
      by_cases hk : k < t.low_k <;>
    simp [hn, hp, hk, h1, h2, h3, Ne.symm h1, Ne.symm h2, Ne.symm h3]

theorem nutrientWarnings_length_le (n p k : ℚ) (t : Thresholds) :
    (nutrientWarnings n p k t).length ≤ 3 := by
  unfold nutrientWarnings
  split_ifs <;> simp

/-- C7: after the leading pH message, a successful call's messages are the
0–3 nutrient warnings in the fixed order N, P, K, the N warning present iff
`n < lowN`, the P warning iff `p < lowP`, the K warning iff `k < lowK`. -/
theorem recommend_nutrient_warnings (crop : String) (soil_ph n p k : ℚ)
    (rainfall_mm : ℤ) (rules : RuleTable) (c : CropRule)
    (hc : List.lookup (lower (strip crop)) rules.crops = some c) :
    ∃ r, recommend crop soil_ph n p k rainfall_mm rules = .ok r ∧
      r.messages =
        phMessage (lower (strip crop)) soil_ph c.ideal_ph.1 c.ideal_ph.2
          :: nutrientWarnings n p k rules.thresholds ∧
      nutrientWarnings n p k rules.thresholds =
        (if n < rules.thresholds.low_n then [nitrogenWarning] else [])
          ++ (if p < rules.thresholds.low_p then [phosphorusWarning] else [])
          ++ (if k < rules.thresholds.low_k then [potassiumWarning] else []) ∧
      (nitrogenWarning ∈ nutrientWarnings n p k rules.thresholds ↔
        n < rules.thresholds.low_n) ∧
      (phosphorusWarning ∈ nutrientWarnings n p k rules.thresholds ↔
        p < rules.thresholds.low_p) ∧
      (potassiumWarning ∈ nutrientWarnings n p k rules.thresholds ↔
        k < rules.thresholds.low_k) ∧
      (nutrientWarnings n p k rules.thresholds).length ≤ 3 :=
  ⟨_, recommend_ok crop soil_ph n p k rainfall_mm rules c hc, rfl, rfl,
    nitrogen_mem_iff n p k rules.thresholds,
    phosphorus_mem_iff n p k rules.thresholds,
    potassium_mem_iff n p k rules.thresholds,
    nutrientWarnings_length_le n p k rules.thresholds⟩

theorem recommend_nutrient_warnings_witness :
    List.lookup (lower (strip "maize")) tblW.crops = some cW ∧
    (∃ r, recommend "maize" 5 20 40 40 500 tblW = .ok r ∧
      r.messages =
        phMessage (lower (strip "maize")) 5 cW.ideal_ph.1 cW.ideal_ph.2
          :: nutrientWarnings 20 40 40 tblW.thresholds ∧
      nutrientWarnings 20 40 40 tblW.thresholds =
        (if (20 : ℚ) < tblW.thresholds.low_n then [nitrogenWarning] else [])
          ++ (if (40 : ℚ) < tblW.thresholds.low_p then [phosphorusWarning] else [])
          ++ (if (40 : ℚ) < tblW.thresholds.low_k then [potassiumWarning] else []) ∧
      (nitrogenWarning ∈ nutrientWarnings 20 40 40 tblW.thresholds ↔
        (20 : ℚ) < tblW.thresholds.low_n) ∧
      (phosphorusWarning ∈ nutrientWarnings 20 40 40 tblW.thresholds ↔
        (40 : ℚ) < tblW.thresholds.low_p) ∧
      (potassiumWarning ∈ nutrientWarnings 20 40 40 tblW.thresholds ↔
        (40 : ℚ) < tblW.thresholds.low_k) ∧
      (nutrientWarnings 20 40 40 tblW.thresholds).length ≤ 3) :=
  ⟨rfl, recommend_nutrient_warnings "maize" 5 20 40 40 500 tblW cW rfl⟩

/-- C6 (amended): every successful call's messages list starts with exactly
one pH message, chosen by the source's `if`/`elif`/`else` chain: the LOW
message iff `soilPh < idealPhLow`; the HIGH message iff
`soilPh ≥ idealPhLow` and `soilPh > idealPhHigh`; otherwise the
within-range message (for a well-formed range `idealPhLow ≤ idealPhHigh`
this matches the claim, and equality with either bound yields the
within-range message). The message contains the crop key and the pH
formatted to one decimal place. -/
theorem recommend_ph_message (crop : String) (soil_ph n p k : ℚ)
    (rainfall_mm : ℤ) (rules : RuleTable) (c : CropRule)
    (hc : List.lookup (lower (strip crop)) rules.crops = some c) :
    ∃ r, recommend crop soil_ph n p k rainfall_mm rules = .ok r ∧
      r.messages =
        phMessage (lower (strip crop)) soil_ph c.ideal_ph.1 c.ideal_ph.2
          :: nutrientWarnings n p k rules.thresholds ∧
      (soil_ph < c.ideal_ph.1 →
        phMessage (lower (strip crop)) soil_ph c.ideal_ph.1 c.ideal_ph.2
          = phLowMessage (lower (strip crop)) soil_ph) ∧
      (¬ soil_ph < c.ideal_ph.1 → c.ideal_ph.2 < soil_ph →
        phMessage (lower (strip crop)) soil_ph c.ideal_ph.1 c.ideal_ph.2
          = phHighMessage (lower (strip crop)) soil_ph) ∧
      (¬ soil_ph < c.ideal_ph.1 → ¬ c.ideal_ph.2 < soil_ph →
        phMessage (lower (strip crop)) soil_ph c.ideal_ph.1 c.ideal_ph.2
          = phOkMessage (lower (strip crop)) soil_ph) ∧
      (∃ a b d : String,
        phMessage (lower (strip crop)) soil_ph c.ideal_ph.1 c.ideal_ph.2
          = a ++ fmt1 soil_ph ++ b ++ lower (strip crop) ++ d) := by
  refine ⟨_, recommend_ok crop soil_ph n p k rainfall_mm rules c hc, rfl,
    ?_, ?_, ?_, ?_⟩
  · intro h
    simp [phMessage, h]
  · intro h1 h2
    simp [phMessage, h1, h2]
  · intro h1 h2
    simp [phMessage, h1, h2]
  · unfold phMessage
    split_ifs
    · exact ⟨"Soil pH (", ") is LOW for ",
        ". Consider liming (after soil test).", rfl⟩
    · exact ⟨"Soil pH (", ") is HIGH for ",
        ". Consider organic matter / sulfur guidance (after soil test).", rfl⟩
    · exact ⟨"Soil pH (", ") is within ideal range for ", ".", rfl⟩

theorem recommend_ph_message_witness :
    List.lookup (lower (strip "maize")) tblW.crops = some cW ∧
    (∃ r, recommend "maize" 7 40 40 40 500 tblW = .ok r ∧
      r.messages =
        phMessage (lower (strip "maize")) 7 cW.ideal_ph.1 cW.ideal_ph.2
          :: nutrientWarnings 40 40 40 tblW.thresholds ∧
      ((7 : ℚ) < cW.ideal_ph.1 →
        phMessage (lower (strip "maize")) 7 cW.ideal_ph.1 cW.ideal_ph.2
          = phLowMessage (lower (strip "maize")) 7) ∧
      (¬ (7 : ℚ) < cW.ideal_ph.1 → cW.ideal_ph.2 < 7 →
        phMessage (lower (strip "maize")) 7 cW.ideal_ph.1 cW.ideal_ph.2
          = phHighMessage (lower (strip "maize")) 7) ∧
      (¬ (7 : ℚ) < cW.ideal_ph.1 → ¬ cW.ideal_ph.2 < 7 →
        phMessage (lower (strip "maize")) 7 cW.ideal_ph.1 cW.ideal_ph.2
          = phOkMessage (lower (strip "maize")) 7) ∧
      (∃ a b d : String,
        phMessage (lower (strip "maize")) 7 cW.ideal_ph.1 cW.ideal_ph.2
          = a ++ fmt1 7 ++ b ++ lower (strip "maize") ++ d)) :=
  ⟨rfl, recommend_ph_message "maize" 7 40 40 40 500 tblW cW rfl⟩

/-- The crop rule of the C6 counterexample: an inverted ideal pH range. -/
def cC6 : CropRule :=
  { ideal_ph := (7, 5), base_npk := (1, 1, 1), notes := some [] }

/-- Table holding `cC6`. -/
def tblC6 : RuleTable :=
  { crops := [("plot", cC6)]
    thresholds :=
      { low_rainfall_mm := 400, high_rainfall_mm := 1200
        low_n := 5, low_p := 5, low_k := 5 } }

/-- C6 fails as stated: with the inverted range `idealPhLow = 7 >
idealPhHigh = 5` and `soilPh = 6 > idealPhHigh`, the claim demands a HIGH
message, but the call returns only the LOW message. -/
theorem recommend_ph_message_counterexample :
    cC6.ideal_ph.2 = 5 ∧ (5 : ℚ) < 6 ∧
    Option.map Result.messages (recommend "plot" 6 9 9 9 500 tblC6).toOption
      = some [phLowMessage "plot" 6] ∧
    phHighMessage "plot" 6 ∉ [phLowMessage "plot" 6] := by
  have h6 : fmt1 6 = "6.0" := by
    norm_num [fmt1, roundHalfEven]
    rfl
  refine ⟨rfl, by norm_num, ?_, ?_⟩
  · have hlk : List.lookup (lower (strip "plot")) tblC6.crops = some cC6 := rfl
    rw [recommend_ok "plot" 6 9 9 9 500 tblC6 cC6 hlk]
    have hkey : lower (strip "plot") = "plot" := rfl
    simp only [Except.toOption, Option.map, Option.some.injEq, hkey]
    norm_num [phMessage, nutrientWarnings, cC6, tblC6]
  · simp only [phLowMessage, phHighMessage, h6]
    decide

/-- C8 (amended): a successful call's tips are the crop's notes in their
original order followed by exactly one rainfall tip, chosen by the source's
`if`/`elif`/`else` chain: the low tip iff `rainfallMm < lowRainfallMm`; the
high tip iff `rainfallMm ≥ lowRainfallMm` and `rainfallMm > highRainfallMm`;
otherwise the moderate tip (for well-ordered thresholds this matches the
claim, both bounds inclusive in the moderate case). -/
theorem recommend_tips (crop : String) (soil_ph n p k : ℚ)
    (rainfall_mm : ℤ) (rules : RuleTable) (c : CropRule)
    (hc : List.lookup (lower (strip crop)) rules.crops = some c) :
    ∃ r, recommend crop soil_ph n p k rainfall_mm rules = .ok r ∧
      r.tips = c.notes.getD [] ++ [rainfallTip rainfall_mm rules.thresholds] ∧
      (rainfall_mm < rules.thresholds.low_rainfall_mm →
        rainfallTip rainfall_mm rules.thresholds = lowRainfallTip) ∧
      (¬ rainfall_mm < rules.thresholds.low_rainfall_mm →
        rules.thresholds.high_rainfall_mm < rainfall_mm →
        rainfallTip rainfall_mm rules.thresholds = highRainfallTip) ∧
      (¬ rainfall_mm < rules.thresholds.low_rainfall_mm →
        ¬ rules.thresholds.high_rainfall_mm < rainfall_mm →
        rainfallTip rainfall_mm rules.thresholds = moderateRainfallTip) := by
  refine ⟨_, recommend_ok crop soil_ph n p k rainfall_mm rules c hc, rfl,
    ?_, ?_, ?_⟩
  · intro h
    simp [rainfallTip, h]
  · intro h1 h2
    simp [rainfallTip, h1, h2]
  · intro h1 h2
    simp [rainfallTip, h1, h2]

theorem recommend_tips_witness :
    List.lookup (lower (strip "maize")) tblW.crops = some cW ∧
    (∃ r, recommend "maize" 6 40 40 40 500 tblW = .ok r ∧
      r.tips = cW.notes.getD [] ++ [rainfallTip 500 tblW.thresholds] ∧
      ((500 : ℤ) < tblW.thresholds.low_rainfall_mm →
        rainfallTip 500 tblW.thresholds = lowRainfallTip) ∧
      (¬ (500 : ℤ) < tblW.thresholds.low_rainfall_mm →
        tblW.thresholds.high_rainfall_mm < 500 →
        rainfallTip 500 tblW.thresholds = highRainfallTip) ∧
      (¬ (500 : ℤ) < tblW.thresholds.low_rainfall_mm →
        ¬ tblW.thresholds.high_rainfall_mm < 500 →
        rainfallTip 500 tblW.thresholds = moderateRainfallTip)) :=
  ⟨rfl, recommend_tips "maize" 6 40 40 40 500 tblW cW rfl⟩

/-- The crop rule of the C8 counterexample. -/
def cC8 : CropRule :=
  { ideal_ph := (5, 7), base_npk := (1, 1, 1), notes := some [] }

/-- Table holding `cC8`, with inverted rainfall thresholds. -/
def tblC8 : RuleTable :=
  { crops := [("plot8", cC8)]
    thresholds :=
      { low_rainfall_mm := 1200, high_rainfall_mm := 400
        low_n := 5, low_p := 5, low_k := 5 } }

/-- C8 fails as stated: with inverted thresholds `lowRainfallMm = 1200 >
highRainfallMm = 400` and `rainfallMm = 800 > highRainfallMm`, the claim
demands the high-rainfall tip, but the call appends only the low-rainfall
tip. -/
theorem recommend_tips_counterexample :
    tblC8.thresholds.high_rainfall_mm = 400 ∧ (400 : ℤ) < 800 ∧
    Option.map Result.tips (recommend "plot8" 6 9 9 9 800 tblC8).toOption
      = some [lowRainfallTip] ∧
    highRainfallTip ∉ [lowRainfallTip] := by
  refine ⟨rfl, by norm_num, ?_, by decide⟩
  have hlk : List.lookup (lower (strip "plot8")) tblC8.crops = some cC8 := rfl
  rw [recommend_ok "plot8" 6 9 9 9 800 tblC8 cC8 hlk]
  simp only [Except.toOption, Option.map, Option.some.injEq]
  norm_num [rainfallTip, cC8, tblC8]

/-- C10: a crop rule with no notes field (modelled as `notes = none`,
matching `c.get("notes", [])` in the source) does not make `recommend`
fail: the tips seed defaults to the empty list, the returned tips are
exactly the single rainfall tip, and the whole result is identical to the
one produced for the same rule with an explicit empty notes list. -/
theorem recommend_missing_notes (crop : String) (soil_ph n p k : ℚ)
    (rainfall_mm : ℤ) (rules rules' : RuleTable) (c : CropRule)
    (hc : List.lookup (lower (strip crop)) rules.crops = some c)
    (hnotes : c.notes = none)
    (hc' : List.lookup (lower (strip crop)) rules'.crops
      = some { c with notes := some [] })
    (hthr : rules.thresholds = rules'.thresholds) :
    (∃ r, recommend crop soil_ph n p k rainfall_mm rules = .ok r ∧
      r.tips = [rainfallTip rainfall_mm rules.thresholds]) ∧
    recommend crop soil_ph n p k rainfall_mm rules =
      recommend crop soil_ph n p k rainfall_mm rules' := by
  constructor
  · refine ⟨_, recommend_ok crop soil_ph n p k rainfall_mm rules c hc, ?_⟩
    show c.notes.getD [] ++ [rainfallTip rainfall_mm rules.thresholds] = _
    rw [hnotes]
    rfl
  · rw [recommend_ok crop soil_ph n p k rainfall_mm rules c hc,
      recommend_ok crop soil_ph n p k rainfall_mm rules' _ hc']
    simp [hnotes, hthr]

/-- The notes-free crop rule of the C10 witness. -/
def cC10 : CropRule :=
  { ideal_ph := (11/2, 7), base_npk := (120, 60, 40), notes := none }

/-- Table holding `cC10`. -/
def tblC10 : RuleTable :=
  { crops := [("maizeten", cC10)]
    thresholds :=
      { low_rainfall_mm := 400, high_rainfall_mm := 1200
        low_n := 30, low_p := 25, low_k := 20 } }

/-- Variant of `tblC10` with an explicit empty notes list instead. -/
def tblC10E : RuleTable :=
  { crops := [("maizeten", { cC10 with notes := some [] })]
    thresholds :=
      { low_rainfall_mm := 400, high_rainfall_mm := 1200
        low_n := 30, low_p := 25, low_k := 20 } }

theorem recommend_missing_notes_witness :
    List.lookup (lower (strip "maizeten")) tblC10.crops = some cC10 ∧
    cC10.notes = none ∧
    List.lookup (lower (strip "maizeten")) tblC10E.crops
      = some { cC10 with notes := some [] } ∧
    tblC10.thresholds = tblC10E.thresholds ∧
    ((∃ r, recommend "maizeten" 6 40 40 40 500 tblC10 = .ok r ∧
        r.tips = [rainfallTip 500 tblC10.thresholds]) ∧
      recommend "maizeten" 6 40 40 40 500 tblC10 =
        recommend "maizeten" 6 40 40 40 500 tblC10E) :=
  ⟨rfl, rfl, rfl, rfl,
    recommend_missing_notes "maizeten" 6 40 40 40 500 tblC10 tblC10E cC10
      rfl rfl rfl rfl⟩

end Advisor
